import Mathlib

set_option linter.unusedVariables false

/-!
Shallow embedding of the two HTTP route handlers of the
`batch_vtuber_dashboard` repository:

* `src/app/api/youtube/channel/route.ts` (channel discovery: bound-parameter
  validation, the bounded paginated search loop `fetchYouTubeChannels`, row
  projection and the two upserts), embedded as `channelGET`;
* `src/app/api/batch/route.ts` (video sync), embedded as `videoGET`.

Modelling conventions:

* JavaScript numbers that the code only compares, floors or stores are
  modelled as `Nat` (the validated bounds, which the code floors and the
  checks keep non-negative) or `Int` (the statistics counts).  The
  string-to-float coercion performed by `Number(...)` is abstracted into
  small sum types (`StatField`, `QueryParam`) that record only the outcome
  of the coercion, which is all the downstream code inspects.
* The upstream YouTube API is a pair of response functions (`Upstream`);
  `fetch` failures surface as `FetchResult.httpError` carrying the HTTP
  status and body text, exactly the data the source interpolates into its
  error messages.
* The Supabase client is a pair of upsert functions (`Store`) returning an
  optional error message; the handlers additionally return a trace of the
  store calls they issued, so that "no upsert call is made" is expressible.
* The JavaScript `while` loop of `fetchYouTubeChannels` need not terminate
  (pages may forever return a continuation token and no new ids), so the
  loop takes explicit fuel and reports exhaustion as `RunResult.outOfFuel`.
* JavaScript truthiness tests on strings (`!id`, `if (nextPageToken)`)
  treat the empty string as falsy; the embedding reproduces this.
-/

def MAX_RESULTS : Nat := 100

def CHUNK_SIZE : Nat := 50

def MAX_ALLOWED_SUBSCRIBERS : Nat := 10000

/-- A statistics field of the upstream detail response as seen by
`numberOrUndefined`: absent (`null`/`undefined`), coercible to a finite
number, or coercing to `NaN`/`Infinity`. -/
inductive StatField where
  | absent : StatField
  | finiteNum (n : Int) : StatField
  | nonFinite : StatField
deriving DecidableEq

/-- `numberOrUndefined` from `channel/route.ts`: finite numbers pass
through, everything else becomes `undefined`. -/
def numberOrUndefined : StatField → Option Int
  | .absent => none
  | .finiteNum n => some n
  | .nonFinite => none

/-- The in-memory `YouTubeChannel` record of `channel/route.ts`. -/
structure YouTubeChannel where
  id : String
  title : String
  customUrl : Option String
  thumbnailUrl : Option String
  country : Option String
  subscriberCount : Option Int
  viewCount : Option Int
  videoCount : Option Int
  etag : Option String
deriving DecidableEq

/-- One item of a search response; `channelId` models `item?.id?.channelId`. -/
structure SearchItem where
  channelId : Option String
deriving DecidableEq

/-- One page of the search endpoint response. -/
structure SearchPage where
  items : List SearchItem
  nextPageToken : Option String
deriving DecidableEq

/-- The `snippet` object of a detail item (`item.snippet ?? {}` makes every
field optional). -/
structure DetailSnippet where
  title : Option String
  customUrl : Option String
  thumbHigh : Option String
  thumbMedium : Option String
  thumbDefault : Option String
  country : Option String
deriving DecidableEq

/-- The `statistics` object of a detail item (`item.statistics ?? {}`). -/
structure DetailStatistics where
  hiddenSubscriberCount : Bool
  subscriberCount : StatField
  viewCount : StatField
  videoCount : StatField
deriving DecidableEq

/-- One item of the channels (detail) endpoint response. -/
structure DetailItem where
  id : Option String
  snippet : DetailSnippet
  statistics : DetailStatistics
  etag : Option String
deriving DecidableEq

/-- JavaScript truthiness of a `string | undefined` value: `undefined` and
the empty string are falsy. -/
def tokenTruthy : Option String → Bool
  | none => false
  | some s => !s.isEmpty

/-- The per-page candidate extraction loop of `fetchYouTubeChannels`
(lines 74-80): walk the page items, skip items with a falsy id or an
already-seen id, push new ids and mark them seen, and break out of the page
once the batch reaches the remaining quota.  Returns the batch and the
updated seen set (modelled as a list). -/
def collectCandidates (remaining : Nat) :
    List SearchItem → List String → List String → List String × List String
  | [], acc, seen => (acc, seen)
  | item :: rest, acc, seen =>
    match item.channelId with
    | none => collectCandidates remaining rest acc seen
    | some id =>
      if id = "" ∨ id ∈ seen then collectCandidates remaining rest acc seen
      else if remaining ≤ acc.length + 1 then (acc ++ [id], id :: seen)
      else collectCandidates remaining rest (acc ++ [id]) (id :: seen)

/-- Construction of the `YouTubeChannel` record stored into `detailMap`
(lines 106-124): `??` fallbacks become `Option` operations, and a truthy
`hiddenSubscriberCount` suppresses the subscriber count. -/
def buildChannel (id : String) (item : DetailItem) : YouTubeChannel :=
  { id := id
    title := item.snippet.title.getD id
    customUrl := item.snippet.customUrl
    thumbnailUrl :=
      (item.snippet.thumbHigh).orElse fun _ =>
        (item.snippet.thumbMedium).orElse fun _ => item.snippet.thumbDefault
    country := item.snippet.country
    subscriberCount :=
      if item.statistics.hiddenSubscriberCount then none
      else numberOrUndefined item.statistics.subscriberCount
    viewCount := numberOrUndefined item.statistics.viewCount
    videoCount := numberOrUndefined item.statistics.videoCount
    etag := item.etag }

/-- One iteration of the `detailMap` construction loop (lines 103-125):
items with a falsy id are skipped, otherwise `Map.set` binds the id to the
constructed record, overwriting any earlier binding. -/
def detailMapStep (m : String → Option YouTubeChannel) (item : DetailItem) :
    String → Option YouTubeChannel :=
  match item.id with
  | none => m
  | some id =>
    if id = "" then m
    else fun k => if k = id then some (buildChannel id item) else m k

/-- The `detailMap` built from a detail response (modelled as a lookup
function; JavaScript `Map.get` returns the last value set for a key). -/
def buildDetailMap (items : List DetailItem) : String → Option YouTubeChannel :=
  items.foldl detailMapStep (fun _ => none)

/-- The merge loop of `fetchYouTubeChannels` (lines 127-131): iterate the
candidate ids in discovery order and append the matching detail record when
present. -/
def mergeStep (candidateIds : List String)
    (detailMap : String → Option YouTubeChannel)
    (collected : List YouTubeChannel) : List YouTubeChannel :=
  candidateIds.foldl
    (fun acc id =>
      match detailMap id with
      | none => acc
      | some c => acc ++ [c])
    collected

/-- Outcome of one outbound `fetch`: a parsed body, or a non-success HTTP
status with the response body text. -/
inductive FetchResult (α : Type) where
  | ok (val : α) : FetchResult α
  | httpError (status : Nat) (body : String) : FetchResult α
deriving DecidableEq

/-- The upstream YouTube API: the search endpoint is addressed by the
`maxResults` value and the `pageToken` parameter actually sent (absent on
the first page), the channels endpoint by the batch of candidate ids. -/
structure Upstream where
  search : Nat → Option String → FetchResult SearchPage
  detail : List String → FetchResult (List DetailItem)

/-- Record of one search-page request: the `maxResults` set on the URL and
the `pageToken` parameter (absent when the token was falsy). -/
structure SearchCall where
  maxResults : Nat
  pageToken : Option String
deriving DecidableEq

/-- Result of one discovery run: the collected channels, a thrown error
message, or fuel exhaustion (the JavaScript loop not having terminated
within the given fuel). -/
inductive RunResult where
  | ok (channels : List YouTubeChannel) : RunResult
  | err (msg : String) : RunResult
  | outOfFuel : RunResult
deriving DecidableEq

/-- The `while` loop of `fetchYouTubeChannels` (lines 54-135), one fuel unit
per iteration.  State: collected channels, seen ids, the current
`nextPageToken` variable, and the trace of search calls issued so far. -/
def fetchLoop (up : Upstream) :
    Nat → List YouTubeChannel → List String → Option String →
    List SearchCall → List SearchCall × RunResult
  | 0, _, _, _, calls => (calls, .outOfFuel)
  | fuel + 1, collected, seen, tok, calls =>
    if collected.length < MAX_RESULTS then
      let remaining := MAX_RESULTS - collected.length
      let mr := min CHUNK_SIZE remaining
      let tokParam := if tokenTruthy tok then tok else none
      let calls2 := calls ++ [⟨mr, tokParam⟩]
      match up.search mr tokParam with
      | .httpError status body =>
        (calls2, .err ("YouTube search API error: " ++ toString status ++ " " ++ body))
      | .ok page =>
        let extracted := collectCandidates remaining page.items [] seen
        let candidateIds := extracted.1
        let seen2 := extracted.2
        if candidateIds.length = 0 then
          if tokenTruthy page.nextPageToken then
            fetchLoop up fuel collected seen2 page.nextPageToken calls2
          else (calls2, .ok (collected.take MAX_RESULTS))
        else
          match up.detail candidateIds with
          | .httpError status body =>
            (calls2, .err ("YouTube channels API error: " ++ toString status ++ " " ++ body))
          | .ok items =>
            let collected2 := mergeStep candidateIds (buildDetailMap items) collected
            if tokenTruthy page.nextPageToken then
              fetchLoop up fuel collected2 seen2 page.nextPageToken calls2
            else (calls2, .ok (collected2.take MAX_RESULTS))
    else (calls, .ok (collected.take MAX_RESULTS))

/-- `fetchYouTubeChannels` (lines 48-138): run the loop from the empty
state; the final `collected.slice(0, MAX_RESULTS)` is the `take` inside
`fetchLoop`.  Also returns the trace of search-page requests. -/
def fetchYouTubeChannels (up : Upstream) (fuel : Nat) :
    List SearchCall × RunResult :=
  fetchLoop up fuel [] [] none []

/-- Row shape upserted into the `channels` table (lines 192-199). -/
structure ChannelRow where
  id : String
  title : String
  custom_url : Option String
  thumbnail_url : Option String
  country : Option String
  etag : Option String
deriving DecidableEq

/-- Row shape upserted into the `channel_stats` table (lines 201-206). -/
structure StatsRow where
  channel_id : String
  subscriber_count : Option Int
  view_count : Option Int
  video_count : Option Int
deriving DecidableEq

/-- The `channelRows` projection: `?? null` turns absent options into SQL
nulls, which `Option` already models. -/
def toChannelRow (c : YouTubeChannel) : ChannelRow :=
  ⟨c.id, c.title, c.customUrl, c.thumbnailUrl, c.country, c.etag⟩

/-- The `statsRows` projection. -/
def toStatsRow (c : YouTubeChannel) : StatsRow :=
  ⟨c.id, c.subscriberCount, c.viewCount, c.videoCount⟩

/-- A query parameter after the `Number(...)` coercion inside `parseBound`:
`missing` is `null` or a blank string, `invalid` is a value whose coercion
is non-finite or negative, and `valid n` carries `Math.floor` of a finite
non-negative coercion result.  The float coercion itself stays outside the
embedding; `parseBound` only inspects its outcome. -/
inductive QueryParam where
  | missing : QueryParam
  | invalid : QueryParam
  | valid (n : Nat) : QueryParam
deriving DecidableEq

/-- `parseBound` (lines 40-47): missing inputs take the fallback, invalid
ones throw `"Invalid numeric parameter"`, valid ones are floored. -/
def parseBound : QueryParam → Nat → Except String Nat
  | .missing, fallback => .ok fallback
  | .invalid, _ => .error "Invalid numeric parameter"
  | .valid n, _ => .ok n

/-- Presence of the two server-side credentials the discovery handler
checks (`YOUTUBE_API_KEY`; Supabase URL and key). -/
structure Env where
  hasYoutubeKey : Bool
  hasSupabase : Bool
deriving DecidableEq

/-- The Supabase client as the discovery handler uses it: each upsert
returns the store error message, if any. -/
structure Store where
  upsertChannels : List ChannelRow → Option String
  upsertStats : List StatsRow → Option String

/-- Trace entry for one store call issued by the discovery handler. -/
inductive StoreCall where
  | channelsUpsert (rows : List ChannelRow) : StoreCall
  | statsUpsert (rows : List StatsRow) : StoreCall
deriving DecidableEq

/-- JSON response of the discovery handler: a 400 with an error body, a 500
with an error body, or the success body
`\x7b status: 200, message: "Batch processing completed" \x7d`. -/
inductive ChannelResp where
  | clientError (msg : String) : ChannelResp
  | serverError (msg : String) : ChannelResp
  | success : ChannelResp
deriving DecidableEq

/-- The part of the discovery `GET` handler after the bound checks (lines
169-221): configuration checks, `fetchYouTubeChannels`, row projection, and
the two length-guarded upserts.  In the source this continuation never
mentions the parsed bounds, so it is factored out here.  Returns `none`
when the discovery loop exhausted its fuel (the JavaScript run would still
be looping), otherwise the store-call trace and the response. -/
def discoveryRun (env : Env) (store : Store) (up : Upstream) (fuel : Nat) :
    Option (List StoreCall × ChannelResp) :=
  if !env.hasYoutubeKey then
    some ([], .serverError "Server is not configured with YOUTUBE_API_KEY")
  else if !env.hasSupabase then
    some ([], .serverError "Server is not configured with Supabase credentials")
  else
    match (fetchYouTubeChannels up fuel).2 with
    | .outOfFuel => none
    | .err msg => some ([], .serverError msg)
    | .ok channels =>
      let channelRows := channels.map toChannelRow
      let statsRows := channels.map toStatsRow
      if 0 < channelRows.length then
        match store.upsertChannels channelRows with
        | some e => some ([.channelsUpsert channelRows], .serverError e)
        | none =>
          if 0 < statsRows.length then
            match store.upsertStats statsRows with
            | some e =>
              some ([.channelsUpsert channelRows, .statsUpsert statsRows],
                .serverError e)
            | none =>
              some ([.channelsUpsert channelRows, .statsUpsert statsRows],
                .success)
          else some ([.channelsUpsert channelRows], .success)
      else
        if 0 < statsRows.length then
          match store.upsertStats statsRows with
          | some e => some ([.statsUpsert statsRows], .serverError e)
          | none => some ([.statsUpsert statsRows], .success)
        else some ([], .success)

/-- The `GET` handler of `channel/route.ts` (lines 140-222): parse both
bounds, run the validation chain, then hand over to `discoveryRun`. -/
def channelGET (minP maxP : QueryParam) (env : Env) (store : Store)
    (up : Upstream) (fuel : Nat) : Option (List StoreCall × ChannelResp) :=
  match parseBound minP 0 with
  | .error msg => some ([], .clientError msg)
  | .ok minSubscribers =>
    match parseBound maxP MAX_ALLOWED_SUBSCRIBERS with
    | .error msg => some ([], .clientError msg)
    | .ok maxSubscribers0 =>
      if MAX_ALLOWED_SUBSCRIBERS < minSubscribers then
        some ([], .clientError
          ("minSubscribers must be less than or equal to " ++
            toString MAX_ALLOWED_SUBSCRIBERS))
      else
        let maxSubscribers :=
          if MAX_ALLOWED_SUBSCRIBERS < maxSubscribers0 then
            MAX_ALLOWED_SUBSCRIBERS
          else maxSubscribers0
        if maxSubscribers < minSubscribers then
          some ([], .clientError
            "minSubscribers must be less than or equal to maxSubscribers")
        else discoveryRun env store up fuel

/-- The Boolean validation gate of `channelGET`: both bounds parse and
neither bound check rejects (the upper bound being clamped to the maximum
before the ordering check). -/
def passesValidation (minP maxP : QueryParam) : Bool :=
  match parseBound minP 0, parseBound maxP MAX_ALLOWED_SUBSCRIBERS with
  | .ok mn, .ok mx =>
    decide (mn ≤ MAX_ALLOWED_SUBSCRIBERS) &&
      decide (mn ≤ min mx MAX_ALLOWED_SUBSCRIBERS)
  | _, _ => false

/-- One item of the video search response as `batch/route.ts` reads it:
`item.id.videoId`, `item.snippet.title`, `item.snippet.publishedAt` are
accessed without guards, so they are modelled as present. -/
structure VideoItem where
  videoId : String
  title : String
  publishedAt : String
deriving DecidableEq

/-- Row shape upserted into the `videos` table. -/
structure VideoRow where
  video_id : String
  title : String
  published_at : String
deriving DecidableEq

/-- Outcome of the single upstream fetch of the video-sync handler. -/
inductive VideoFetch where
  | ok (items : List VideoItem) : VideoFetch
  | httpError : VideoFetch
deriving DecidableEq

/-- JSON response of the video-sync handler: `\x7b inserted: n \x7d` on
success, or the 500 body `\x7b error: "batch failed" \x7d`. -/
inductive VideoResp where
  | inserted (n : Nat) : VideoResp
  | batchFailed : VideoResp
deriving DecidableEq

/-- The `GET` handler of `batch/route.ts`: on a successful fetch the rows
are mapped and upserted unconditionally (there is no emptiness guard in
this handler); any thrown error yields the `batchFailed` response.  The
first component traces the row sets passed to the `videos` upsert. -/
def videoGET (fetched : VideoFetch)
    (upsertVideos : List VideoRow → Option String) :
    List (List VideoRow) × VideoResp :=
  match fetched with
  | .httpError => ([], .batchFailed)
  | .ok items =>
    let rows := items.map fun i => VideoRow.mk i.videoId i.title i.publishedAt
    match upsertVideos rows with
    | some _ => ([rows], .batchFailed)
    | none => ([rows], .inserted rows.length)

/-! Concrete fixtures used to evaluate the theorems on closed inputs. -/

/-- An environment with both credentials configured. -/
def fullEnv : Env := ⟨true, true⟩

/-- A store whose upserts always succeed. -/
def quietStore : Store := ⟨fun _ => none, fun _ => none⟩

/-- An upstream whose search pages are empty and carry no continuation
token. -/
def emptyUpstream : Upstream :=
  ⟨fun _ _ => .ok ⟨[], none⟩, fun _ => .ok []⟩

/-- An upstream whose search endpoint always replies HTTP 403. -/
def errUpstream : Upstream :=
  ⟨fun _ _ => .httpError 403 "quotaExceeded", fun _ => .ok []⟩

/-- An upstream returning one candidate whose detail lookup replies
HTTP 500. -/
def detailErrUpstream : Upstream :=
  ⟨fun _ _ => .ok ⟨[⟨some "A"⟩], none⟩, fun _ => .httpError 500 "boom"⟩

/-- An upstream whose search pages are empty but always carry a
continuation token. -/
def tokenUpstream : Upstream :=
  ⟨fun _ _ => .ok ⟨[], some "T"⟩, fun _ => .ok []⟩

/-- A concrete detail item with a hidden subscriber count next to a numeric
`subscriberCount`. -/
def hiddenItem : DetailItem :=
  ⟨some "A", ⟨some "Ch", none, none, none, none, none⟩,
    ⟨true, .finiteNum 42, .finiteNum 7, .finiteNum 3⟩, some "e1"⟩

/-- An upstream returning exactly one channel, `hiddenItem`. -/
def oneUpstream : Upstream :=
  ⟨fun _ _ => .ok ⟨[⟨some "A"⟩], none⟩, fun _ => .ok [hiddenItem]⟩

/-! Helper lemmas. -/

/-- The merge loop is `filterMap` of the detail lookup over the candidate
ids, appended to the previously collected channels. -/
theorem mergeStep_eq_filterMap (m : String → Option YouTubeChannel) :
    ∀ (candidateIds : List String) (collected : List YouTubeChannel),
      mergeStep candidateIds m collected =
        collected ++ candidateIds.filterMap m := by
  intro cand
  induction cand with
  | nil => intro coll; simp [mergeStep]
  | cons id rest ih =>
    intro coll
    cases h : m id with
    | none =>
      have hstep : mergeStep (id :: rest) m coll = mergeStep rest m coll := by
        simp [mergeStep, h]
      rw [hstep, ih, List.filterMap_cons, h]
    | some c =>
      have hstep : mergeStep (id :: rest) m coll =
          mergeStep rest m (coll ++ [c]) := by
        simp [mergeStep, h]
      rw [hstep, ih, List.filterMap_cons, h]
      simp

/-- Every record stored in the detail map is keyed by its own channel id. -/
theorem detailMapFold_id :
    ∀ (items : List DetailItem) (m0 : String → Option YouTubeChannel),
      (∀ k c, m0 k = some c → c.id = k) →
      ∀ k c, (items.foldl detailMapStep m0) k = some c → c.id = k := by
  intro items
  induction items with
  | nil => intro m0 h0 k c h; exact h0 k c h
  | cons item rest ih =>
    intro m0 h0 k c h
    refine ih _ ?_ k c h
    intro k2 c2 h2
    cases hid : item.id with
    | none =>
      simp only [detailMapStep, hid] at h2
      exact h0 k2 c2 h2
    | some id =>
      simp only [detailMapStep, hid] at h2
      by_cases hemp : id = ""
      · rw [if_pos hemp] at h2; exact h0 k2 c2 h2
      · rw [if_neg hemp] at h2
        by_cases hk : k2 = id
        · rw [if_pos hk] at h2
          cases h2
          exact hk.symm
        · rw [if_neg hk] at h2
          exact h0 k2 c2 h2

/-- `buildDetailMap` instance of `detailMapFold_id`. -/
theorem buildDetailMap_id (items : List DetailItem) :
    ∀ k c, buildDetailMap items k = some c → c.id = k := by
  intro k c h
  exact detailMapFold_id items (fun _ => none) (by intro k2 c2 h2; cases h2) k c h

/-- The ids of the merged records are the candidate ids that have a detail
record, in candidate order. -/
theorem filterMap_map_id (m : String → Option YouTubeChannel)
    (hm : ∀ k c, m k = some c → c.id = k) :
    ∀ cand : List String,
      (cand.filterMap m).map YouTubeChannel.id =
        cand.filter fun k => (m k).isSome := by
  intro cand
  induction cand with
  | nil => rfl
  | cons k rest ih =>
    cases h : m k with
    | none => simp [List.filterMap_cons, h, ih, List.filter_cons]
    | some c => simp [List.filterMap_cons, h, ih, List.filter_cons, hm k c h]

/-- Invariants of the per-page extraction loop: assuming the accumulated
batch is duplicate-free and already marked seen, the final batch is
duplicate-free, every batch id ends up in the final seen set, the initial
seen set survives, and every batch id was either accumulated before or was
unseen initially. -/
theorem collectCandidates_spec (remaining : Nat) :
    ∀ (items : List SearchItem) (acc seen : List String),
      acc.Nodup → (∀ a ∈ acc, a ∈ seen) →
      (collectCandidates remaining items acc seen).1.Nodup ∧
      (∀ x ∈ (collectCandidates remaining items acc seen).1,
        x ∈ (collectCandidates remaining items acc seen).2) ∧
      (∀ x ∈ seen, x ∈ (collectCandidates remaining items acc seen).2) ∧
      (∀ x ∈ (collectCandidates remaining items acc seen).1,
        x ∈ acc ∨ x ∉ seen) := by
  intro items
  induction items with
  | nil =>
    intro acc seen hnd hsub
    refine ⟨hnd, ?_, ?_, ?_⟩
    · intro x hx; exact hsub x hx
    · intro x hx; exact hx
    · intro x hx; exact Or.inl hx
  | cons item rest ih =>
    intro acc seen hnd hsub
    cases hid : item.channelId with
    | none =>
      simp only [collectCandidates, hid]
      exact ih acc seen hnd hsub
    | some id =>
      simp only [collectCandidates, hid]
      by_cases hskip : id = "" ∨ id ∈ seen
      · rw [if_pos hskip]
        exact ih acc seen hnd hsub
      · rw [if_neg hskip]
        push_neg at hskip
        obtain ⟨hne, hnotseen⟩ := hskip
        have hidacc : id ∉ acc := fun hmem => hnotseen (hsub id hmem)
        have hnd2 : (acc ++ [id]).Nodup := by
          simp [List.nodup_append, hnd, hidacc]
        have hsub2 : ∀ a ∈ acc ++ [id], a ∈ id :: seen := by
          intro a ha
          rcases List.mem_append.mp ha with h1 | h1
          · exact List.mem_cons_of_mem _ (hsub a h1)
          · simp at h1; simp [h1]
        by_cases hbrk : remaining ≤ acc.length + 1
        · rw [if_pos hbrk]
          refine ⟨hnd2, ?_, ?_, ?_⟩
          · intro x hx; exact hsub2 x hx
          · intro x hx; exact List.mem_cons_of_mem _ hx
          · intro x hx
            rcases List.mem_append.mp hx with h1 | h1
            · exact Or.inl h1
            · simp at h1; subst h1; exact Or.inr hnotseen
        · rw [if_neg hbrk]
          obtain ⟨c1, c2, c3, c4⟩ := ih (acc ++ [id]) (id :: seen) hnd2 hsub2
          refine ⟨c1, c2, ?_, ?_⟩
          · intro x hx; exact c3 x (List.mem_cons_of_mem _ hx)
          · intro x hx
            rcases c4 x hx with h1 | h1
            · rcases List.mem_append.mp h1 with h2 | h2
              · exact Or.inl h2
              · simp at h2; subst h2; exact Or.inr hnotseen
            · refine Or.inr fun hmem => h1 (List.mem_cons_of_mem _ hmem)

/-- Every search call recorded by the loop requests at most `CHUNK_SIZE`
results, provided the calls already recorded do. -/
theorem fetchLoop_calls_chunk (up : Upstream) :
    ∀ (fuel : Nat) (collected : List YouTubeChannel) (seen : List String)
      (tok : Option String) (calls : List SearchCall),
      (∀ c ∈ calls, c.maxResults ≤ CHUNK_SIZE) →
      ∀ c ∈ (fetchLoop up fuel collected seen tok calls).1,
        c.maxResults ≤ CHUNK_SIZE := by
  intro fuel
  induction fuel with
  | zero =>
    intro collected seen tok calls hcalls c hc
    simp only [fetchLoop] at hc
    exact hcalls c hc
  | succ n ih =>
    intro collected seen tok calls hcalls c hc
    have hext : ∀ mr tok2, mr = min CHUNK_SIZE (MAX_RESULTS - collected.length) →
        ∀ c2 ∈ calls ++ [SearchCall.mk mr tok2], c2.maxResults ≤ CHUNK_SIZE := by
      intro mr tok2 hmr c2 hc2
      rcases List.mem_append.mp hc2 with h1 | h1
      · exact hcalls c2 h1
      · simp at h1; subst h1; simp [hmr]
    simp only [fetchLoop] at hc
    split at hc
    · split at hc
      · exact hext _ _ rfl c hc
      · split at hc
        · split at hc
          · exact ih _ _ _ _ (hext _ _ rfl) c hc
          · exact hext _ _ rfl c hc
        · split at hc
          · exact hext _ _ rfl c hc
          · split at hc
            · exact ih _ _ _ _ (hext _ _ rfl) c hc
            · exact hext _ _ rfl c hc
    · exact hcalls c hc

/-- Whenever the loop returns collected channels, the final
`slice(0, MAX_RESULTS)` keeps their number at or below the cap. -/
theorem fetchLoop_ok_length (up : Upstream) :
    ∀ (fuel : Nat) (collected : List YouTubeChannel) (seen : List String)
      (tok : Option String) (calls calls2 : List SearchCall)
      (chs : List YouTubeChannel),
      fetchLoop up fuel collected seen tok calls = (calls2, .ok chs) →
      chs.length ≤ MAX_RESULTS := by
  intro fuel
  induction fuel with
  | zero =>
    intro collected seen tok calls calls2 chs h
    simp [fetchLoop] at h
  | succ n ih =>
    intro collected seen tok calls calls2 chs h
    simp only [fetchLoop] at h
    split at h
    · split at h
      · simp at h
      · split at h
        · split at h
          · exact ih _ _ _ _ _ _ h
          · simp only [Prod.mk.injEq] at h
            obtain ⟨-, h2⟩ := h
            injection h2 with h3
            subst h3
            rw [List.length_take]
            omega
        · split at h
          · simp at h
          · split at h
            · exact ih _ _ _ _ _ _ h
            · simp only [Prod.mk.injEq] at h
              obtain ⟨-, h2⟩ := h
              injection h2 with h3
              subst h3
              rw [List.length_take]
              omega
    · simp only [Prod.mk.injEq] at h
      obtain ⟨-, h2⟩ := h
      injection h2 with h3
      subst h3
      rw [List.length_take]
      omega

/-- Whenever the loop returns collected channels, their ids are pairwise
distinct, provided the ids collected so far are distinct and already marked
seen. -/
theorem fetchLoop_nodup (up : Upstream) :
    ∀ (fuel : Nat) (collected : List YouTubeChannel) (seen : List String)
      (tok : Option String) (calls calls2 : List SearchCall)
      (chs : List YouTubeChannel),
      (collected.map YouTubeChannel.id).Nodup →
      (∀ ch ∈ collected, ch.id ∈ seen) →
      fetchLoop up fuel collected seen tok calls = (calls2, .ok chs) →
      (chs.map YouTubeChannel.id).Nodup := by
  intro fuel
  induction fuel with
  | zero =>
    intro collected seen tok calls calls2 chs hnd hmem h
    simp [fetchLoop] at h
  | succ n ih =>
    intro collected seen tok calls calls2 chs hnd hmem h
    have htake : ∀ (l : List YouTubeChannel), (l.map YouTubeChannel.id).Nodup →
        ((l.take MAX_RESULTS).map YouTubeChannel.id).Nodup := by
      intro l hl
      rw [List.map_take]
      exact List.Nodup.sublist (List.take_sublist _ _) hl
    simp only [fetchLoop] at h
    split at h
    · rename_i hlt
      split at h
      · simp at h
      · rename_i page heqs
        obtain ⟨c1, c2, c3, c4⟩ :=
          collectCandidates_spec (MAX_RESULTS - collected.length) page.items [] seen
            List.nodup_nil (by intro a ha; cases ha)
        split at h
        · split at h
          · exact ih _ _ _ _ _ _ hnd (fun ch hch => c3 ch.id (hmem ch hch)) h
          · simp only [Prod.mk.injEq] at h
            obtain ⟨-, h2⟩ := h
            injection h2 with h3
            subst h3
            exact htake _ hnd
        · split at h
          · simp at h
          · rename_i items heqd
            have hid := buildDetailMap_id items
            have hmerge := mergeStep_eq_filterMap (buildDetailMap items)
              (collectCandidates (MAX_RESULTS - collected.length) page.items [] seen).1
              collected
            have hfm := filterMap_map_id (buildDetailMap items) hid
              (collectCandidates (MAX_RESULTS - collected.length) page.items [] seen).1
            have hnd2 : ((mergeStep
                (collectCandidates (MAX_RESULTS - collected.length) page.items [] seen).1
                (buildDetailMap items) collected).map YouTubeChannel.id).Nodup := by
              rw [hmerge, List.map_append, hfm]
              rw [List.nodup_append]
              refine ⟨hnd, List.Nodup.filter _ c1, ?_⟩
              intro a ha hb
              obtain ⟨ch, hch, rfl⟩ := List.mem_map.mp ha
              have haseen : ch.id ∈ seen := hmem ch hch
              have hacand := List.mem_of_mem_filter hb
              rcases c4 ch.id hacand with h1 | h1
              · cases h1
              · exact h1 haseen
            have hmem2 : ∀ ch ∈ mergeStep
                (collectCandidates (MAX_RESULTS - collected.length) page.items [] seen).1
                (buildDetailMap items) collected,
                ch.id ∈ (collectCandidates (MAX_RESULTS - collected.length) page.items [] seen).2 := by
              rw [hmerge]
              intro ch hch
              rcases List.mem_append.mp hch with h1 | h1
              · exact c3 ch.id (hmem ch h1)
              · obtain ⟨a, ha, hma⟩ := List.mem_filterMap.mp h1
                rw [hid a ch hma]
                exact c2 a ha
            split at h
            · exact ih _ _ _ _ _ _ hnd2 hmem2 h
            · simp only [Prod.mk.injEq] at h
              obtain ⟨-, h2⟩ := h
              injection h2 with h3
              subst h3
              exact htake _ hnd2
    · simp only [Prod.mk.injEq] at h
      obtain ⟨-, h2⟩ := h
      injection h2 with h3
      subst h3
      exact htake _ hnd

/-- A request that passes the bound validation reaches the post-validation
continuation unchanged. -/
theorem channelGET_eq_discoveryRun (minP maxP : QueryParam) (env : Env)
    (store : Store) (up : Upstream) (fuel : Nat)
    (h : passesValidation minP maxP = true) :
    channelGET minP maxP env store up fuel = discoveryRun env store up fuel := by
  unfold passesValidation at h
  unfold channelGET
  cases hmin : parseBound minP 0 with
  | error msg => rw [hmin] at h; simp at h
  | ok mn =>
    cases hmax : parseBound maxP MAX_ALLOWED_SUBSCRIBERS with
    | error msg => rw [hmin, hmax] at h; simp at h
    | ok mx =>
      rw [hmin, hmax] at h
      simp only [Bool.and_eq_true, decide_eq_true_eq] at h
      obtain ⟨h1, h2⟩ := h
      simp only [hmin, hmax]
      rw [if_neg (not_lt.mpr h1)]
      have hcl : ¬ ((if MAX_ALLOWED_SUBSCRIBERS < mx then MAX_ALLOWED_SUBSCRIBERS
          else mx) < mn) := by
        rcases le_or_lt mx MAX_ALLOWED_SUBSCRIBERS with hle | hgt
        · rw [if_neg (not_lt.mpr hle)]
          exact not_lt.mpr (le_trans h2 (min_le_left _ _))
        · rw [if_pos hgt]
          exact not_lt.mpr (le_trans h2 (min_le_right _ _))
      rw [if_neg hcl]

/-- One unfolding of the loop body while the cap has not been reached. -/
theorem fetchLoop_step (up : Upstream) (fuel : Nat)
    (collected : List YouTubeChannel) (seen : List String) (tok : Option String)
    (calls : List SearchCall) (hlt : collected.length < MAX_RESULTS) :
    fetchLoop up (fuel + 1) collected seen tok calls =
      (let remaining := MAX_RESULTS - collected.length
       let mr := min CHUNK_SIZE remaining
       let tokParam := if tokenTruthy tok then tok else none
       let calls2 := calls ++ [⟨mr, tokParam⟩]
       match up.search mr tokParam with
       | .httpError status body =>
         (calls2, .err ("YouTube search API error: " ++ toString status ++ " " ++ body))
       | .ok page =>
         let extracted := collectCandidates remaining page.items [] seen
         let candidateIds := extracted.1
         let seen2 := extracted.2
         if candidateIds.length = 0 then
           if tokenTruthy page.nextPageToken then
             fetchLoop up fuel collected seen2 page.nextPageToken calls2
           else (calls2, .ok (collected.take MAX_RESULTS))
         else
           match up.detail candidateIds with
           | .httpError status body =>
             (calls2, .err ("YouTube channels API error: " ++ toString status ++ " " ++ body))
           | .ok items =>
             let collected2 := mergeStep candidateIds (buildDetailMap items) collected
             if tokenTruthy page.nextPageToken then
               fetchLoop up fuel collected2 seen2 page.nextPageToken calls2
             else (calls2, .ok (collected2.take MAX_RESULTS))) := by
  simp only [fetchLoop]
  rw [if_pos hlt]

/-- The first iteration of a run, with the closed initial state reduced. -/
theorem fetchLoop_first_step (up : Upstream) (fuel : Nat) :
    fetchYouTubeChannels up (fuel + 1) =
      (match up.search 50 none with
       | .httpError status body =>
         ([⟨50, none⟩], .err ("YouTube search API error: " ++ toString status ++ " " ++ body))
       | .ok page =>
         let extracted := collectCandidates 100 page.items [] []
         if extracted.1.length = 0 then
           if tokenTruthy page.nextPageToken then
             fetchLoop up fuel [] extracted.2 page.nextPageToken [⟨50, none⟩]
           else ([⟨50, none⟩], .ok [])
         else
           match up.detail extracted.1 with
           | .httpError status body =>
             ([⟨50, none⟩], .err ("YouTube channels API error: " ++ toString status ++ " " ++ body))
           | .ok items =>
             let collected2 := mergeStep extracted.1 (buildDetailMap items) []
             if tokenTruthy page.nextPageToken then
               fetchLoop up fuel collected2 extracted.2 page.nextPageToken [⟨50, none⟩]
             else ([⟨50, none⟩], .ok (collected2.take MAX_RESULTS))) := rfl

/-! Claim theorems. -/

/-- C9: for every batch of candidate ids and every detail map, the merge
step appends to the accumulated result exactly the detail records of the
candidate ids, walked in their original discovery order, and candidate ids
with no matching detail record are silently dropped — the appended segment
is `filterMap` of the detail lookup over the candidate ids. -/
theorem claim_C9_merge_discovery_order (candidateIds : List String)
    (detailMap : String → Option YouTubeChannel)
    (collected : List YouTubeChannel) :
    mergeStep candidateIds detailMap collected =
      collected ++ candidateIds.filterMap detailMap :=
  mergeStep_eq_filterMap detailMap candidateIds collected

/-- C10: a truthy `hiddenSubscriberCount` makes the constructed record's
`subscriberCount` absent (and hence the projected stats row's
`subscriber_count` null), regardless of any numeric `subscriberCount` in
the statistics, while `viewCount` and `videoCount` are computed from the
statistics unaffected by the flag. -/
theorem claim_C10_hidden_subscriber_count (id : String) (item : DetailItem)
    (hHidden : item.statistics.hiddenSubscriberCount = true) :
    (buildChannel id item).subscriberCount = none ∧
    (toStatsRow (buildChannel id item)).subscriber_count = none ∧
    (buildChannel id item).viewCount = numberOrUndefined item.statistics.viewCount ∧
    (buildChannel id item).videoCount = numberOrUndefined item.statistics.videoCount := by
  simp [buildChannel, toStatsRow, hHidden]

/-- Witness for C10 on a concrete item that hides a numeric subscriber
count of 42. -/
theorem claim_C10_witness :
    (buildChannel "A" hiddenItem).subscriberCount = none ∧
    (toStatsRow (buildChannel "A" hiddenItem)).subscriber_count = none ∧
    (buildChannel "A" hiddenItem).viewCount =
      numberOrUndefined hiddenItem.statistics.viewCount ∧
    (buildChannel "A" hiddenItem).videoCount =
      numberOrUndefined hiddenItem.statistics.videoCount :=
  claim_C10_hidden_subscriber_count "A" hiddenItem rfl

/-- C2: two requests whose bound parameters both pass validation behave
identically for the same upstream responses — same store calls, same
response; the parsed bounds never filter the results. -/
theorem claim_C2_bounds_do_not_filter (minP1 maxP1 minP2 maxP2 : QueryParam)
    (env : Env) (store : Store) (up : Upstream) (fuel : Nat)
    (h1 : passesValidation minP1 maxP1 = true)
    (h2 : passesValidation minP2 maxP2 = true) :
    channelGET minP1 maxP1 env store up fuel =
      channelGET minP2 maxP2 env store up fuel := by
  rw [channelGET_eq_discoveryRun minP1 maxP1 env store up fuel h1,
    channelGET_eq_discoveryRun minP2 maxP2 env store up fuel h2]

/-- Witness for C2: two different passing bound pairs give the same run. -/
theorem claim_C2_witness :
    channelGET (.valid 5) (.valid 9000) fullEnv quietStore emptyUpstream 1 =
      channelGET .missing .missing fullEnv quietStore emptyUpstream 1 :=
  claim_C2_bounds_do_not_filter (.valid 5) (.valid 9000) .missing .missing
    fullEnv quietStore emptyUpstream 1 (by decide) (by decide)

/-- C7: bound validation is asymmetric.  A parsed `minSubscribers` above
the maximum is rejected with the 400 message, while a parsed
`maxSubscribers` above the maximum is silently clamped to the maximum and
the request proceeds as if the maximum had been supplied, provided the
lower bound is within bounds. -/
theorem claim_C7_asymmetric_bound_validation :
    (∀ (n : Nat) (maxP : QueryParam) (mx : Nat) (env : Env) (store : Store)
        (up : Upstream) (fuel : Nat),
        MAX_ALLOWED_SUBSCRIBERS < n →
        parseBound maxP MAX_ALLOWED_SUBSCRIBERS = .ok mx →
        channelGET (.valid n) maxP env store up fuel =
          some ([], .clientError
            "minSubscribers must be less than or equal to 10000")) ∧
    (∀ (minP : QueryParam) (mn mx : Nat) (env : Env) (store : Store)
        (up : Upstream) (fuel : Nat),
        parseBound minP 0 = .ok mn →
        mn ≤ MAX_ALLOWED_SUBSCRIBERS →
        MAX_ALLOWED_SUBSCRIBERS < mx →
        passesValidation minP (.valid mx) = true ∧
        channelGET minP (.valid mx) env store up fuel =
          channelGET minP (.valid MAX_ALLOWED_SUBSCRIBERS) env store up fuel) := by
  constructor
  · intro n maxP mx env store up fuel hn hmax
    cases maxP with
    | invalid => simp [parseBound] at hmax
    | missing =>
      simp only [channelGET, parseBound]
      rw [if_pos hn]
      rfl
    | valid v =>
      simp only [channelGET, parseBound]
      rw [if_pos hn]
      rfl
  · intro minP mn mx env store up fuel hmin hle hgt
    have hpass1 : passesValidation minP (.valid mx) = true := by
      unfold passesValidation
      rw [hmin]
      simp [parseBound, hle, min_eq_right (le_of_lt hgt)]
    have hpass2 : passesValidation minP (.valid MAX_ALLOWED_SUBSCRIBERS) = true := by
      unfold passesValidation
      rw [hmin]
      simp [parseBound, hle]
    refine ⟨hpass1, ?_⟩
    rw [channelGET_eq_discoveryRun minP (.valid mx) env store up fuel hpass1,
      channelGET_eq_discoveryRun minP (.valid MAX_ALLOWED_SUBSCRIBERS) env store up
        fuel hpass2]

/-- Witness for C7: `minSubscribers=20000` is rejected with the 400
message, `maxSubscribers=50000` passes validation and runs as if the
maximum had been supplied. -/
theorem claim_C7_witness :
    channelGET (.valid 20000) .missing fullEnv quietStore emptyUpstream 1 =
      some ([], .clientError
        "minSubscribers must be less than or equal to 10000") ∧
    (passesValidation .missing (.valid 50000) = true ∧
      channelGET .missing (.valid 50000) fullEnv quietStore emptyUpstream 1 =
        channelGET .missing (.valid MAX_ALLOWED_SUBSCRIBERS) fullEnv quietStore
          emptyUpstream 1) :=
  ⟨claim_C7_asymmetric_bound_validation.1 20000 .missing MAX_ALLOWED_SUBSCRIBERS
      fullEnv quietStore emptyUpstream 1 (by decide) rfl,
    claim_C7_asymmetric_bound_validation.2 .missing 0 50000 fullEnv quietStore
      emptyUpstream 1 rfl (by decide) (by decide)⟩

/-- C3: in every discovery run, each recorded search-page request sets
`maxResults` to at most the chunk size (50), and whenever the run returns a
channel list its length is at most the cap (100). -/
theorem claim_C3_cap_and_chunk (up : Upstream) (fuel : Nat) :
    (∀ call ∈ (fetchYouTubeChannels up fuel).1, call.maxResults ≤ CHUNK_SIZE) ∧
    (∀ chs, (fetchYouTubeChannels up fuel).2 = .ok chs →
      chs.length ≤ MAX_RESULTS) := by
  constructor
  · exact fetchLoop_calls_chunk up fuel [] [] none [] (by intro c hc; cases hc)
  · intro chs h
    refine fetchLoop_ok_length up fuel [] [] none []
      (fetchYouTubeChannels up fuel).1 chs ?_
    simp only [fetchYouTubeChannels] at h ⊢
    rw [← h]

/-- Witness for C3 on a one-page run: the single recorded request asks for
at most 50 results, and the empty returned list is within the cap. -/
theorem claim_C3_witness :
    (SearchCall.mk 50 none).maxResults ≤ CHUNK_SIZE ∧
    ([] : List YouTubeChannel).length ≤ MAX_RESULTS :=
  ⟨(claim_C3_cap_and_chunk emptyUpstream 1).1 ⟨50, none⟩ (by decide),
    (claim_C3_cap_and_chunk emptyUpstream 1).2 [] rfl⟩

/-- C4: whatever the upstream pages are, the channel list returned by a
discovery run contains no channel id twice. -/
theorem claim_C4_no_duplicate_ids (up : Upstream) (fuel : Nat)
    (calls : List SearchCall) (chs : List YouTubeChannel)
    (h : fetchYouTubeChannels up fuel = (calls, .ok chs)) :
    (chs.map YouTubeChannel.id).Nodup :=
  fetchLoop_nodup up fuel [] [] none [] calls chs (by simp)
    (by intro ch hch; cases hch) h

/-- Witness for C4 on a run returning one concrete channel. -/
theorem claim_C4_witness :
    (([buildChannel "A" hiddenItem]).map YouTubeChannel.id).Nodup :=
  claim_C4_no_duplicate_ids oneUpstream 1 [⟨50, none⟩]
    [buildChannel "A" hiddenItem] rfl

/-- C5: if no successful search response carries a continuation token, the
loop issues exactly one search-page request and terminates (it neither
loops on nor runs out of fuel), however far the collected count is below
the cap. -/
theorem claim_C5_no_token_single_page (up : Upstream) (fuel : Nat)
    (hTok : ∀ mr tok page, up.search mr tok = .ok page →
      page.nextPageToken = none) :
    (fetchYouTubeChannels up (fuel + 1)).1.length = 1 ∧
    (fetchYouTubeChannels up (fuel + 1)).2 ≠ RunResult.outOfFuel := by
  rw [fetchLoop_first_step up fuel]
  cases hs : up.search 50 none with
  | httpError status body => simp
  | ok page =>
    have htok : page.nextPageToken = none := hTok _ _ _ hs
    simp only [htok, tokenTruthy]
    by_cases hz : (collectCandidates 100 page.items [] []).1.length = 0
    · simp [hz]
    · simp only [if_neg hz, Bool.false_eq_true, if_false]
      cases hd : up.detail (collectCandidates 100 page.items [] []).1 with
      | httpError st b => simp
      | ok items => simp

/-- Witness for C5 on the token-free upstream: one search call, loop done
with one unit of fuel to spare. -/
theorem claim_C5_witness :
    (fetchYouTubeChannels emptyUpstream 1).1.length = 1 ∧
    (fetchYouTubeChannels emptyUpstream 1).2 ≠ RunResult.outOfFuel :=
  claim_C5_no_token_single_page emptyUpstream 0
    (by intro mr tok page h; injection h with h2; rw [← h2])

/-- C8: when a search page yields zero new candidate ids, the loop does not
treat the page as terminal: it advances to the next page with the returned
continuation token, unless that token is absent (falsy), in which case it
stops with the channels collected so far. -/
theorem claim_C8_empty_batch_advances (up : Upstream) (fuel : Nat)
    (collected : List YouTubeChannel) (seen : List String) (tok : Option String)
    (calls : List SearchCall) (page : SearchPage)
    (hlt : collected.length < MAX_RESULTS)
    (hs : up.search (min CHUNK_SIZE (MAX_RESULTS - collected.length))
        (if tokenTruthy tok then tok else none) = .ok page)
    (hempty :
      (collectCandidates (MAX_RESULTS - collected.length) page.items [] seen).1
        = []) :
    fetchLoop up (fuel + 1) collected seen tok calls =
      if tokenTruthy page.nextPageToken then
        fetchLoop up fuel collected
          (collectCandidates (MAX_RESULTS - collected.length) page.items [] seen).2
          page.nextPageToken
          (calls ++ [⟨min CHUNK_SIZE (MAX_RESULTS - collected.length),
            if tokenTruthy tok then tok else none⟩])
      else
        (calls ++ [⟨min CHUNK_SIZE (MAX_RESULTS - collected.length),
          if tokenTruthy tok then tok else none⟩],
          .ok (collected.take MAX_RESULTS)) := by
  rw [fetchLoop_step up fuel collected seen tok calls hlt]
  simp only [hs, hempty, List.length_nil, if_pos rfl]
  rw [if_pos trivial]

/-- Witness for C8: an empty page with a continuation token makes the loop
recurse into the next iteration instead of stopping. -/
theorem claim_C8_witness :
    fetchLoop tokenUpstream 1 [] [] none [] =
      fetchLoop tokenUpstream 0 [] [] (some "T") [⟨50, none⟩] := by
  have h := claim_C8_empty_batch_advances tokenUpstream 0 [] [] none []
    ⟨[], some "T"⟩ (by decide) rfl rfl
  rw [h, if_pos (by decide : tokenTruthy (some "T") = true)]
  rfl

/-- C6: a thrown fetch error aborts the whole discovery request — the
handler issues no store call and answers with a 500 carrying the message —
and a non-success status from the search endpoint (in particular 403) or
from the channels endpoint produces an error message naming that endpoint
and the status code. -/
theorem claim_C6_upstream_error_aborts :
    (∀ (minP maxP : QueryParam) (env : Env) (store : Store) (up : Upstream)
        (fuel : Nat) (msg : String),
        passesValidation minP maxP = true →
        env.hasYoutubeKey = true → env.hasSupabase = true →
        (fetchYouTubeChannels up fuel).2 = .err msg →
        channelGET minP maxP env store up fuel =
          some ([], .serverError msg)) ∧
    (∀ (up : Upstream) (fuel : Nat) (body : String),
        up.search 50 none = .httpError 403 body →
        (fetchYouTubeChannels up (fuel + 1)).2 =
          .err ("YouTube search API error: 403 " ++ body)) ∧
    (∀ (up : Upstream) (fuel : Nat) (status : Nat) (body : String)
        (page : SearchPage),
        up.search 50 none = .ok page →
        (collectCandidates 100 page.items [] []).1.length ≠ 0 →
        up.detail (collectCandidates 100 page.items [] []).1 =
          .httpError status body →
        (fetchYouTubeChannels up (fuel + 1)).2 =
          .err ("YouTube channels API error: " ++ toString status ++ " " ++ body)) := by
  refine ⟨?_, ?_, ?_⟩
  · intro minP maxP env store up fuel msg hv hkey hsup herr
    rw [channelGET_eq_discoveryRun minP maxP env store up fuel hv]
    simp [discoveryRun, hkey, hsup, herr]
  · intro up fuel body hs
    rw [fetchLoop_first_step up fuel, hs]
    rfl
  · intro up fuel status body page hs hne hd
    rw [fetchLoop_first_step up fuel, hs]
    simp only [if_neg hne, hd]

/-- Witness for C6: a 403 from search and a 500 from the channels endpoint
on concrete upstreams. -/
theorem claim_C6_witness :
    channelGET .missing .missing fullEnv quietStore errUpstream 1 =
      some ([], .serverError "YouTube search API error: 403 quotaExceeded") ∧
    (fetchYouTubeChannels errUpstream 1).2 =
      .err ("YouTube search API error: 403 " ++ "quotaExceeded") ∧
    (fetchYouTubeChannels detailErrUpstream 1).2 =
      .err ("YouTube channels API error: " ++ toString 500 ++ " " ++ "boom") :=
  ⟨claim_C6_upstream_error_aborts.1 .missing .missing fullEnv quietStore
      errUpstream 1 "YouTube search API error: 403 quotaExceeded" rfl rfl rfl rfl,
    claim_C6_upstream_error_aborts.2.1 errUpstream 0 "quotaExceeded" rfl,
    claim_C6_upstream_error_aborts.2.2 detailErrUpstream 0 500 "boom"
      ⟨[⟨some "A"⟩], none⟩ rfl (by decide) rfl⟩

/-- C1 (amended): the ChannelDiscovery handler skips both upserts when the
discovered channel list is empty (no store call at all, success response);
the VideoSync handler with zero upstream items responds with an inserted
count of 0 when the store reports no error, but it does issue one upsert
call carrying the empty row set — its upsert is not skipped. -/
theorem claim_C1_empty_row_set_handling :
    (∀ (minP maxP : QueryParam) (env : Env) (store : Store) (up : Upstream)
        (fuel : Nat),
        passesValidation minP maxP = true →
        env.hasYoutubeKey = true → env.hasSupabase = true →
        (fetchYouTubeChannels up fuel).2 = .ok [] →
        channelGET minP maxP env store up fuel = some ([], .success)) ∧
    (∀ upsertVideos : List VideoRow → Option String,
        (videoGET (.ok []) upsertVideos).1 = [[]] ∧
        (upsertVideos [] = none →
          videoGET (.ok []) upsertVideos = ([[]], .inserted 0))) := by
  constructor
  · intro minP maxP env store up fuel hv hkey hsup hok
    rw [channelGET_eq_discoveryRun minP maxP env store up fuel hv]
    simp [discoveryRun, hkey, hsup, hok]
  · intro upsertVideos
    constructor
    · unfold videoGET
      cases h : upsertVideos [] <;> simp [h]
    · intro h
      simp [videoGET, h]

/-- Counterexample to C1 as stated: with zero upstream items and a store
that reports no error, the VideoSync handler answers with an inserted
count of 0, yet its upsert-call trace is nonempty — an upsert call with
the empty row set was issued, contradicting "issues no upsert call". -/
theorem claim_C1_counterexample :
    (videoGET (.ok []) (fun _ => none)).2 = .inserted 0 ∧
    (videoGET (.ok []) (fun _ => none)).1 ≠ [] := by
  constructor
  · rfl
  · simp [videoGET]

/-- Witness for C1: a discovery run returning no channels issues no store
call, and the video sync on zero items issues exactly the one empty-row
upsert call and reports zero inserts. -/
theorem claim_C1_witness :
    channelGET .missing .missing fullEnv quietStore emptyUpstream 1 =
      some ([], .success) ∧
    (videoGET (.ok []) (fun _ => some "dup")).1 = [[]] ∧
    videoGET (.ok []) (fun _ => (none : Option String)) = ([[]], .inserted 0) :=
  ⟨claim_C1_empty_row_set_handling.1 .missing .missing fullEnv quietStore
      emptyUpstream 1 rfl rfl rfl rfl,
    (claim_C1_empty_row_set_handling.2 (fun _ => some "dup")).1,
    (claim_C1_empty_row_set_handling.2 (fun _ => none)).2 rfl⟩
